import Mathlib

/-!
Verification of the orchestration engine of the `medical_assistant` repository.

The development shallowly embeds the Python sources:

* `src/core/agent_state.py`            — the shared turn state (`AgentState`);
* `src/agents/main_orchestrator/nodes.py` and `graph.py` — the main
  orchestration graph: role gate, intent routers, placeholder supervisors,
  error handler, and the supervisor-handoff check;
* `src/agents/patient_supervisor/nodes.py` and `graph.py` — the patient
  sub-workflow (analyze → decide → prepare_for_scheduling / finish_conversation);
* `src/core/mcp_manager.py`            — the capability registry
  (`MCPToolManager`).

LangGraph node functions return partial state updates that are merged into
the shared state; conditional-edge routing functions are evaluated on the
state *after* the source node's update has been applied.  External
collaborator calls (the router LLM, the patient-analysis LLM, the MCP client
startup) are modelled by explicit outcome parameters, so each node is a pure
function of the incoming state and the collaborator outcome.
-/

/-- A chat message as seen by the nodes: langchain messages expose a `type`
tag (`"human"`, `"ai"`, ...) and a string `content`. -/
structure Message where
  type : String
  content : String
deriving DecidableEq, Repr

/-- The turn state from `src/core/agent_state.py`, restricted to the fields
the orchestration nodes read or write.  LangGraph materialises only channels
that have been written, and every read in the sources goes through
`state.get(key, default)`, so unwritten optional channels are `none` and
`request_scheduling` is an `Option Bool` read with default `false`. -/
structure AgentState where
  messages : List Message := []
  user_role : Option String := none
  supervisor_name : Option String := none
  route_error : Option String := none
  final_output : Option String := none
  patient_response_text : Option String := none
  request_scheduling : Option Bool := none
  next_supervisor_required : Option String := none
deriving DecidableEq, Repr

/-- A partial state update returned by a node.  A field of value `none` is
not written; `next_supervisor_required_write = some v` means the node wrote
the value `v` (possibly `None`) to the `next_supervisor_required` channel.
`request_scheuling_typo` records a write to the misspelled key
`"request_scheuling"` in `analyze_patient_query`'s init-failure branch; it is
not a channel of `AgentState`, so merging drops it. -/
structure StateUpdate where
  supervisor_name : Option String := none
  route_error : Option String := none
  final_output : Option String := none
  patient_response_text : Option String := none
  request_scheduling : Option Bool := none
  next_supervisor_required_write : Option (Option String) := none
  request_scheuling_typo : Option Bool := none
deriving DecidableEq, Repr

/-- Merge a node's partial update into the state (LangGraph channel write). -/
def applyUpdate (s : AgentState) (u : StateUpdate) : AgentState :=
  { s with
    supervisor_name :=
      match u.supervisor_name with | some w => some w | none => s.supervisor_name
    route_error := match u.route_error with | some w => some w | none => s.route_error
    final_output := match u.final_output with | some w => some w | none => s.final_output
    patient_response_text :=
      match u.patient_response_text with | some w => some w | none => s.patient_response_text
    request_scheduling :=
      match u.request_scheduling with | some w => some w | none => s.request_scheduling
    next_supervisor_required :=
      match u.next_supervisor_required_write with | some w => w | none => s.next_supervisor_required }

/-- Embeds `route_logic_by_role` of `nodes.py` line 20: `role = state.get("user_role", "unknown")` followed by
the role dispatch; returns the name of the next node. -/
def route_logic_by_role (s : AgentState) : String :=
  match s.user_role with
  | some r =>
    if r = "patient" then "patient_intent_router"
    else if r = "doctor" then "doctor_intent_router"
    else "handle_error_node"
  | none => "handle_error_node"

/-- Embeds `messages[-1].content if messages and isinstance(messages[-1], HumanMessage) else ""`
(`nodes.py` lines 54-59; the patient node tests `messages[-1].type == "human"`,
which is the same condition). -/
def currentQueryOf (s : AgentState) : String :=
  match s.messages.getLast? with
  | some m => if m.type = "human" then m.content else ""
  | none => ""

/-- Outcome of the router-LLM collaborator call in `_determine_intent_llm`:
the chain construction can fail (`initFailure`), `chain.invoke` can raise
(`invokeFailure`, carrying the exception text), or a parsed JSON object is
returned whose `supervisor` field may be absent (`response none`). -/
inductive RouterOutcome where
  | initFailure
  | invokeFailure (e : String)
  | response (supervisor : Option String)
deriving DecidableEq, Repr

/-- Python `str(...)` of an optional string, as interpolated into f-strings. -/
def pyOptStr (o : Option String) : String :=
  match o with
  | some v => v
  | none => "None"

/-- Embeds `_determine_intent_llm` of `nodes.py` lines 50-120: empty query short-cut,
then the collaborator call with its three failure branches and the
valid-supervisor check. -/
def determine_intent_llm (s : AgentState) (o : RouterOutcome)
    (valid_supervisors : List String) : StateUpdate :=
  if currentQueryOf s = "" then
    { supervisor_name := some "handle_error_node",
      route_error := some "No query in state." }
  else
    match o with
    | .initFailure =>
      { supervisor_name := some "handle_error_node",
        route_error := some "Intent Router init failed." }
    | .invokeFailure e =>
      { supervisor_name := some "handle_error_node",
        route_error := some ("LLM intent routing failed: " ++ e) }
    | .response sup =>
      match sup with
      | some name =>
        if valid_supervisors.contains name then
          { supervisor_name := some name }
        else
          { supervisor_name := some "handle_error_node",
            route_error := some ("Invalid routing target for role \u0027"
              ++ pyOptStr s.user_role ++ "\u0027: " ++ name) }
      | none =>
        { supervisor_name := some "handle_error_node",
          route_error := some ("Invalid routing target for role \u0027"
            ++ pyOptStr s.user_role ++ "\u0027: None") }

/-- The allowed-supervisor list passed by `patient_intent_router` (`nodes.py`
line 36). -/
def patientValidSupervisors : List String :=
  ["supervisor_patient_general", "supervisor_scheduling", "handle_error_node"]

/-- The allowed-supervisor list passed by `doctor_intent_router` (`nodes.py`
line 46); note that `"supervisor_image_analysis"` is absent. -/
def doctorValidSupervisors : List String :=
  ["supervisor_doctor_general", "supervisor_summarization", "handle_error_node"]

/-- Embeds `patient_intent_router` of `nodes.py` lines 30-37. -/
def patient_intent_router (s : AgentState) (o : RouterOutcome) : StateUpdate :=
  determine_intent_llm s o patientValidSupervisors

/-- Embeds `doctor_intent_router` of `nodes.py` lines 40-47. -/
def doctor_intent_router (s : AgentState) (o : RouterOutcome) : StateUpdate :=
  determine_intent_llm s o doctorValidSupervisors

/-- Embeds `supervisor_doctor_general_placeholder` of `nodes.py` lines 126-128. -/
def supervisor_doctor_general_placeholder (_s : AgentState) : StateUpdate :=
  { final_output := some "Placeholder: Doctor general query would be handled here." }

/-- Embeds `supervisor_scheduling_placeholder` of `nodes.py` lines 131-133. -/
def supervisor_scheduling_placeholder (_s : AgentState) : StateUpdate :=
  { final_output := some "Placeholder: Scheduling logic would start here." }

/-- Embeds `supervisor_summarization_placeholder` of `nodes.py` lines 136-138. -/
def supervisor_summarization_placeholder (_s : AgentState) : StateUpdate :=
  { final_output := some "Placeholder: Summarization logic would start here." }

/-- Embeds `supervisor_image_analysis_placeholder` of `nodes.py` lines 141-144. -/
def supervisor_image_analysis_placeholder (_s : AgentState) : StateUpdate :=
  { final_output := some "Placeholder: Image analysis logic would start here." }

/-- Embeds `handle_error_node` of `nodes.py` lines 147-151. -/
def handle_error_node (s : AgentState) : StateUpdate :=
  { final_output := some ("Sorry, I encountered an error. Reason: "
      ++ (s.route_error.getD "Unknown processing error")) }

/-- Embeds `check_supervisor_handoff` of `nodes.py` lines 154-165: if the handoff
signal is set, the node's update writes `None` to it (consume-once); else the
update is empty. -/
def check_supervisor_handoff (s : AgentState) : StateUpdate :=
  match s.next_supervisor_required with
  | some _ => { next_supervisor_required_write := some none }
  | none => {}

/-- Embeds `route_after_handoff_check` of `graph.py` lines 24-34, evaluated on the
state after `check_supervisor_handoff`'s update has been applied. -/
def route_after_handoff_check (s : AgentState) : String :=
  match s.next_supervisor_required with
  | some n => n
  | none => "output_stage"

/-- The parsed output of the patient-analysis collaborator call, per the
contract declared as `PatientAnalysisOutput` in
`src/agents/patient_supervisor/nodes.py` lines 13-17: a JSON object whose
possible keys are `response_text` and `request_scheduling` (either may be
absent, which is why the source reads them with `dict.get` defaults). -/
structure PatientLLMResponse where
  response_text : Option String := none
  request_scheduling : Option Bool := none
deriving DecidableEq, Repr

/-- Python `dict.get` lookup of a string-valued key on a `PatientLLMResponse`:
only the schema key `"response_text"` can be present. -/
def PatientLLMResponse.getStr (r : PatientLLMResponse) (key : String) : Option String :=
  if key = "response_text" then r.response_text else none

/-- Python `dict.get` lookup of a boolean-valued key on a `PatientLLMResponse`:
only the schema key `"request_scheduling"` can be present; any other key
(in particular the misspelled `"reuqest_scheduling"`) is absent. -/
def PatientLLMResponse.getBool (r : PatientLLMResponse) (key : String) : Option Bool :=
  if key = "request_scheduling" then r.request_scheduling else none

/-- Outcome of the patient-analysis collaborator call in
`analyze_patient_query`: LLM/chain construction failure, `chain.invoke`
failure, or a parsed response. -/
inductive PatientOutcome where
  | initFailure
  | invokeFailure
  | success (r : PatientLLMResponse)
deriving DecidableEq, Repr

/-- Embeds `analyze_patient_query` of `patient_supervisor/nodes.py` lines 20-87.
The empty-query guard fires before any collaborator call; the init-failure
branch writes the misspelled key `"request_scheuling"`; the success branch
reads `response_text` and the misspelled `"reuqest_scheduling"` from the
response with defaults. -/
def analyze_patient_query (s : AgentState) (o : PatientOutcome) : StateUpdate :=
  if currentQueryOf s = "" then
    { patient_response_text :=
        some "I\u0027m sorry, I didnt quite catch that. could you please repeat your question?",
      request_scheduling := some false }
  else
    match o with
    | .initFailure =>
      { patient_response_text := some "Sorry, I\u0027m having trouble understanding right now",
        request_scheuling_typo := some false }
    | .success r =>
      { patient_response_text :=
          some ((r.getStr "response_text").getD "I\u0027m not sure how to respond to that"),
        request_scheduling := some ((r.getBool "reuqest_scheduling").getD false) }
    | .invokeFailure =>
      { patient_response_text :=
          some "Sorry I encountered and error while thinking about your request",
        request_scheduling := some false }

/-- Embeds `decide_next_step` of `patient_supervisor/nodes.py` lines 90-98: routing
function on `state.get("request_scheduling", False)`. -/
def decide_next_step (s : AgentState) : String :=
  if s.request_scheduling.getD false then "prepare_for_scheduling"
  else "finish_conversation"

/-- Embeds `prepare_for_scheduling` of `patient_supervisor/nodes.py` lines 101-108. -/
def prepare_for_scheduling (s : AgentState) : StateUpdate :=
  { final_output := some (s.patient_response_text.getD "Okay lets look scheduling"),
    next_supervisor_required_write := some (some "supervisor_scheduling") }

/-- Embeds `finish_conversation` of `patient_supervisor/nodes.py` lines 111-117. -/
def finish_conversation (s : AgentState) : StateUpdate :=
  { final_output :=
      some (s.patient_response_text.getD "Sorry Im not sure how to respond") }

/-- One whole run of the compiled patient-supervisor graph
(`patient_supervisor/graph.py`): entry `analyze_patient_query`, then the
conditional edge `decide_next_step` evaluated on the updated state, then the
chosen terminal node, then `END`. -/
def runPatientSubgraph (s : AgentState) (o : PatientOutcome) : AgentState :=
  let s1 := applyUpdate s (analyze_patient_query s o)
  if decide_next_step s1 = "prepare_for_scheduling" then
    applyUpdate s1 (prepare_for_scheduling s1)
  else
    applyUpdate s1 (finish_conversation s1)

/-- The nodes of the main orchestrator graph (`graph.py` lines 46-62). -/
inductive MainNode where
  | patient_intent_router
  | doctor_intent_router
  | supervisor_patient_general
  | supervisor_doctor_general
  | supervisor_scheduling
  | supervisor_summarization
  | supervisor_image_analysis
  | handle_error_node
  | check_supervisor_handoff
deriving DecidableEq, Repr

/-- Collaborator outcomes consulted during one main-graph run: the
intent-router LLM call and the patient-analysis LLM call. -/
structure Oracles where
  router : RouterOutcome
  patient : PatientOutcome
deriving Repr

/-- Conditional-edge map out of `patient_intent_router` (`graph.py` lines
78-87): route on `state.get("supervisor_name")` with default
`handle_error_node`. -/
def patientRouterEdge (s : AgentState) : MainNode :=
  match s.supervisor_name with
  | some "supervisor_patient_general" => .supervisor_patient_general
  | some "supervisor_scheduling" => .supervisor_scheduling
  | some "handle_error_node" => .handle_error_node
  | _ => .handle_error_node

/-- Conditional-edge map out of `doctor_intent_router` (`graph.py` lines
90-101): route on `state.get("supervisor_name")` with default
`handle_error_node`; `supervisor_image_analysis` is a wired target. -/
def doctorRouterEdge (s : AgentState) : MainNode :=
  match s.supervisor_name with
  | some "supervisor_doctor_general" => .supervisor_doctor_general
  | some "supervisor_summarization" => .supervisor_summarization
  | some "supervisor_image_analysis" => .supervisor_image_analysis
  | some "handle_error_node" => .handle_error_node
  | _ => .handle_error_node

/-- Conditional-edge map out of `check_supervisor_handoff` (`graph.py` lines
112-121): `"supervisor_scheduling"` re-enters the scheduling supervisor,
`"output_stage"` goes to `END` (`none`), anything else falls back to
`handle_error_node`. -/
def handoffEdge (routeResult : String) : Option MainNode :=
  if routeResult = "supervisor_scheduling" then some .supervisor_scheduling
  else if routeResult = "output_stage" then none
  else some .handle_error_node

/-- One super-step of the main graph: run the node on the state (consulting
the collaborator oracles where the source node does), merge its update, and
compute the next node from the wiring in `graph.py` (`none` = `END`). -/
def mainStep (n : MainNode) (s : AgentState) (o : Oracles) :
    AgentState × Option MainNode :=
  match n with
  | .patient_intent_router =>
    let s1 := applyUpdate s (patient_intent_router s o.router)
    (s1, some (patientRouterEdge s1))
  | .doctor_intent_router =>
    let s1 := applyUpdate s (doctor_intent_router s o.router)
    (s1, some (doctorRouterEdge s1))
  | .supervisor_patient_general =>
    (runPatientSubgraph s o.patient, some .check_supervisor_handoff)
  | .supervisor_doctor_general =>
    (applyUpdate s (supervisor_doctor_general_placeholder s), some .check_supervisor_handoff)
  | .supervisor_scheduling =>
    (applyUpdate s (supervisor_scheduling_placeholder s), some .check_supervisor_handoff)
  | .supervisor_summarization =>
    (applyUpdate s (supervisor_summarization_placeholder s), some .check_supervisor_handoff)
  | .supervisor_image_analysis =>
    (applyUpdate s (supervisor_image_analysis_placeholder s), some .check_supervisor_handoff)
  | .handle_error_node =>
    (applyUpdate s (handle_error_node s), none)
  | .check_supervisor_handoff =>
    let s1 := applyUpdate s (check_supervisor_handoff s)
    (s1, handoffEdge (route_after_handoff_check s1))

/-- Fuel-bounded execution from a node: returns the final state and the list
of nodes executed, or `none` if the fuel runs out before `END`. -/
def runMain (fuel : Nat) (n : MainNode) (s : AgentState) (o : Oracles) :
    Option (AgentState × List MainNode) :=
  match fuel with
  | 0 => none
  | fuel + 1 =>
    let (s1, next) := mainStep n s o
    match next with
    | none => some (s1, [n])
    | some n1 =>
      match runMain fuel n1 s1 o with
      | some (sf, trace) => some (sf, n :: trace)
      | none => none

/-- A whole main-graph run: the conditional entry edge from `START`
(`graph.py` lines 67-75) picks the first node via `route_logic_by_role`,
then execution proceeds to `END`. -/
def runMainGraph (fuel : Nat) (s : AgentState) (o : Oracles) :
    Option (AgentState × List MainNode) :=
  if route_logic_by_role s = "patient_intent_router" then
    runMain fuel .patient_intent_router s o
  else if route_logic_by_role s = "doctor_intent_router" then
    runMain fuel .doctor_intent_router s o
  else
    runMain fuel .handle_error_node s o

/-- The two nodes that invoke the classifier gateway. -/
def classifierNodes : List MainNode :=
  [.patient_intent_router, .doctor_intent_router]

/-- A provider configuration entry (`server_configs` values in
`src/core/mcp_manager.py`): the lifecycle logic reads only
`config.get("disabled", False)`. -/
structure ServerConfig where
  disabled : Option Bool := none
deriving DecidableEq, Repr

/-- A capability (`langchain_core.tools.BaseTool`): the registry logic reads
only its `name`. -/
structure MCPTool where
  name : String
deriving DecidableEq, Repr

/-- The state of `MCPToolManager` (`src/core/mcp_manager.py` lines 14-27):
raw configs, the filtered active configs, whether a client object is held,
the tool list, and the running flag.  The asyncio lock serialises
`start_client`/`stop_client`, so each is modelled as one atomic transition. -/
structure MCPToolManager where
  raw_server_configs : List (String × ServerConfig)
  active_server_configs : List (String × ServerConfig) := []
  client_present : Bool := false
  tools : List MCPTool := []
  is_running : Bool := false
deriving DecidableEq, Repr

/-- Outcome of bringing up the `MultiServerMCPClient`: success with the
tools reported by `get_tools`, or an exception somewhere in the
construct/enter/get_tools sequence. -/
inductive ClientStartOutcome where
  | ok (tools : List MCPTool)
  | failure
deriving DecidableEq, Repr

/-- A provider config is active when `not config.get("disabled", False)`
(`mcp_manager.py` line 41). -/
def configActive (c : ServerConfig) : Bool :=
  !(c.disabled.getD false)

/-- Embeds `MCPToolManager.start_client` (`mcp_manager.py` lines 29-88):
no-op when already running; filter to active configs; with none active,
clear everything and stay stopped; otherwise the client startup either
succeeds (running, tools set) or fails (cleaned up, stopped). -/
def MCPToolManager.start_client (m : MCPToolManager) (o : ClientStartOutcome) :
    MCPToolManager :=
  if m.is_running then m
  else
    let active := m.raw_server_configs.filter (fun p => configActive p.2)
    if active.isEmpty then
      { m with active_server_configs := active, client_present := false,
               tools := [], is_running := false }
    else
      match o with
      | .ok ts =>
        { m with active_server_configs := active, client_present := true,
                 tools := ts, is_running := true }
      | .failure =>
        { m with active_server_configs := active, client_present := false,
                 tools := [], is_running := false }

/-- Embeds `MCPToolManager.stop_client` (`mcp_manager.py` lines 90-106). -/
def MCPToolManager.stop_client (m : MCPToolManager) : MCPToolManager :=
  if !m.is_running || !m.client_present then m
  else { m with client_present := false, tools := [], is_running := false }

/-- Embeds `MCPToolManager.get_all_tools` (`mcp_manager.py` lines 108-113). -/
def MCPToolManager.get_all_tools (m : MCPToolManager) : List MCPTool :=
  if !m.is_running then [] else m.tools

/-- Embeds `MCPToolManager.get_tools_for_agent` (`mcp_manager.py` lines
115-141): `if not required_tool_names: return all_tools` treats both `None`
and an empty list as "no filter"; otherwise keep the tools whose name is in
the requested list (missing names are only logged). -/
def MCPToolManager.get_tools_for_agent (m : MCPToolManager)
    (required_tool_names : Option (List String)) : List MCPTool :=
  let all_tools := m.get_all_tools
  match required_tool_names with
  | none => all_tools
  | some names =>
    if names.isEmpty then all_tools
    else all_tools.filter (fun t => names.contains t.name)

/-- Helper: a string append whose left part is nonempty is nonempty. -/
theorem string_append_ne_empty (a b : String) (ha : a.length ≠ 0) : a ++ b ≠ "" := by
  intro h
  have hl := congrArg String.length h
  rw [String.length_append] at hl
  have h0 : ("" : String).length = 0 := rfl
  rw [h0] at hl
  omega

/-- A pair of arbitrary collaborator-outcome oracles, used where a run never
consults them. -/
def oracleA : Oracles := { router := .initFailure, patient := .initFailure }

/-- A second, different pair of collaborator-outcome oracles. -/
def oracleB : Oracles := { router := .invokeFailure "gateway unreachable", patient := .invokeFailure }

/-- A turn state just after a supervisor requested a handoff to the
scheduling supervisor. -/
def sHandoffPending : AgentState :=
  { final_output := some "Okay lets look scheduling",
    next_supervisor_required := some "supervisor_scheduling" }

/-- A doctor-role turn state carrying a human query. -/
def sDoctorTurn : AgentState :=
  { messages := [{ type := "human", content := "please analyze this scan" }],
    user_role := some "doctor" }

/-- A turn state whose role is neither patient nor doctor. -/
def sUnknownRole : AgentState :=
  { messages := [{ type := "human", content := "hello" }],
    user_role := some "nurse" }

/-- A patient-subworkflow entry state with a stale `request_scheduling = True`
left in the channel. -/
def sPatientPending : AgentState :=
  { messages := [{ type := "human", content := "I need an appointment" }],
    user_role := some "patient",
    request_scheduling := some true }

/-- A fresh patient-subworkflow entry state. -/
def sPatientFresh : AgentState :=
  { messages := [{ type := "human", content := "I have a headache" }],
    user_role := some "patient" }

/-- A manager whose only configured provider is disabled. -/
def mgrDisabledOnly : MCPToolManager :=
  { raw_server_configs := [("appointment_server", { disabled := some true })] }

/-- A running manager exposing one capability named `booking`. -/
def mgrRunning : MCPToolManager :=
  { raw_server_configs := [("srv", {})],
    active_server_configs := [("srv", {})],
    client_present := true,
    tools := [{ name := "booking" }],
    is_running := true }

/-- A stopped manager that still holds a stale tool list. -/
def mgrStopped : MCPToolManager :=
  { raw_server_configs := [("srv", {})],
    tools := [{ name := "booking" }] }

/-- Claim C5: whenever the handoff-check step reads a set
`next_supervisor_required` signal, its update clears the signal in that same
step, and running the handoff-check again on the resulting state detects no
handoff (its update is empty): the signal is consume-once. -/
theorem C5_handoff_consume_once (s : AgentState) (x : String)
    (h : s.next_supervisor_required = some x) :
    (applyUpdate s (check_supervisor_handoff s)).next_supervisor_required = none ∧
    check_supervisor_handoff (applyUpdate s (check_supervisor_handoff s)) = {} := by
  simp [check_supervisor_handoff, applyUpdate, h]

/-- Witness for C5 at a concrete pending-handoff state. -/
theorem C5_handoff_consume_once_witness :
    (applyUpdate sHandoffPending (check_supervisor_handoff sHandoffPending)).next_supervisor_required = none ∧
    check_supervisor_handoff (applyUpdate sHandoffPending (check_supervisor_handoff sHandoffPending)) = {} :=
  C5_handoff_consume_once sHandoffPending "supervisor_scheduling" rfl

/-- Claim C1, evaluated on the code at the failing input: with
`next_supervisor_required = "supervisor_scheduling"` set, the handoff-check
node's update clears the signal, and `route_after_handoff_check` — which
LangGraph evaluates on the updated state — therefore sees `None` and returns
`"output_stage"`, whose edge goes to `END`.  The run thus terminates at
`END` (terminal success) after executing only the handoff-check node; the
scheduling supervisor never re-enters, contrary to the claim and to the
re-entry edge wired in `graph.py`. -/
theorem C1_handoff_reentry_never_fires :
    (applyUpdate sHandoffPending (check_supervisor_handoff sHandoffPending)).next_supervisor_required = none ∧
    route_after_handoff_check
      (applyUpdate sHandoffPending (check_supervisor_handoff sHandoffPending)) = "output_stage" ∧
    handoffEdge "output_stage" = none ∧
    handoffEdge "supervisor_scheduling" = some .supervisor_scheduling ∧
    runMain 5 .check_supervisor_handoff sHandoffPending oracleA =
      some ({ sHandoffPending with next_supervisor_required := none },
            [.check_supervisor_handoff]) := by
  refine ⟨rfl, rfl, rfl, rfl, rfl⟩

/-- Claim C2, evaluated on the code at the failing input: the doctor intent
router's `valid_supervisors` list omits `"supervisor_image_analysis"`, so a
classification result of `"supervisor_image_analysis"` is rejected as
invalid and the run is sent to the error terminal — even though the graph
wires `doctor_intent_router → supervisor_image_analysis` and registers the
image-analysis placeholder node.  The run's trace is
`[doctor_intent_router, handle_error_node]`. -/
theorem C2_image_analysis_rejected :
    (doctor_intent_router sDoctorTurn (.response (some "supervisor_image_analysis"))).supervisor_name
      = some "handle_error_node" ∧
    (doctor_intent_router sDoctorTurn (.response (some "supervisor_image_analysis"))).route_error.isSome
      = true ∧
    doctorRouterEdge
      (applyUpdate sDoctorTurn { supervisor_name := some "supervisor_image_analysis" })
      = .supervisor_image_analysis ∧
    (runMainGraph 5 sDoctorTurn
        { router := .response (some "supervisor_image_analysis"), patient := .initFailure }).map Prod.snd
      = some [.doctor_intent_router, .handle_error_node] := by
  refine ⟨rfl, rfl, rfl, rfl⟩

/-- Claim C4: for every collaborator response, the analyze step's update sets
`request_scheduling` to `false` — the success branch reads the misspelled key
`"reuqest_scheduling"`, which is never a key of the response contract, so the
`dict.get` default `False` always applies (and the empty-query guard also
writes `false`) — and consequently the decide step, evaluated on the updated
state, always routes to `finish_conversation`. -/
theorem C4_typo_key_always_false (s : AgentState) (r : PatientLLMResponse) :
    (analyze_patient_query s (.success r)).request_scheduling = some false ∧
    decide_next_step (applyUpdate s (analyze_patient_query s (.success r))) =
      "finish_conversation" := by
  by_cases hq : currentQueryOf s = "" <;>
    simp [analyze_patient_query, PatientLLMResponse.getBool, applyUpdate,
          decide_next_step, hq]

/-- Claim C3: in every patient sub-workflow run started with no pending
handoff, if `request_scheduling` is `true` at the decide step then the
terminal state carries `next_supervisor_required = "supervisor_scheduling"`
and a non-empty `final_output`; if it is `false`, `next_supervisor_required`
is left unset. -/
theorem C3_scheduling_flag_drives_handoff (s : AgentState) (o : PatientOutcome)
    (hns : s.next_supervisor_required = none) :
    ((applyUpdate s (analyze_patient_query s o)).request_scheduling.getD false = true →
      (runPatientSubgraph s o).next_supervisor_required = some "supervisor_scheduling" ∧
      (runPatientSubgraph s o).final_output.getD "" ≠ "") ∧
    ((applyUpdate s (analyze_patient_query s o)).request_scheduling.getD false = false →
      (runPatientSubgraph s o).next_supervisor_required = none) := by
  by_cases hq : currentQueryOf s = "" <;> cases o <;>
    rcases hreq : s.request_scheduling with _ | b <;> (try cases b) <;>
    simp [runPatientSubgraph, analyze_patient_query, applyUpdate, decide_next_step,
          prepare_for_scheduling, finish_conversation, PatientLLMResponse.getBool,
          hq, hns, hreq]

/-- Witness for C3: the scheduling branch fires from a stale
`request_scheduling = True` when the analyze step hits its init-failure
branch (which writes only the misspelled key), and the finish branch leaves
the handoff signal unset on a fresh run. -/
theorem C3_scheduling_flag_drives_handoff_witness :
    ((runPatientSubgraph sPatientPending .initFailure).next_supervisor_required =
        some "supervisor_scheduling" ∧
      (runPatientSubgraph sPatientPending .initFailure).final_output.getD "" ≠ "") ∧
    (runPatientSubgraph sPatientFresh
        (.success { response_text := some "Rest and hydrate", request_scheduling := some true })).next_supervisor_required = none :=
  ⟨(C3_scheduling_flag_drives_handoff sPatientPending .initFailure rfl).1 rfl,
   (C3_scheduling_flag_drives_handoff sPatientFresh
      (.success { response_text := some "Rest and hydrate", request_scheduling := some true })
      rfl).2 rfl⟩

/-- The failure modes of the classifier gateway as seen by
`_determine_intent_llm`: chain-construction failure, a raised/unparseable
invocation (gateway unreachable or malformed output), a response missing the
`supervisor` field, or a returned category outside the caller-supplied
allowed list. -/
def RouterOutcome.isFailureMode (o : RouterOutcome) (valid : List String) : Bool :=
  match o with
  | .initFailure => true
  | .invokeFailure _ => true
  | .response (some name) => !(valid.contains name)
  | .response none => true

/-- Claim C6: in every classifier-gateway failure mode, the router step
returns a deterministic fallback update — `supervisor_name` set to the error
node and a `route_error` diagnostic attached — and both router edge maps
send the run to the error terminal; the step is a total function, so no raw
failure propagates to the caller. -/
theorem C6_gateway_failure_fallback (s : AgentState) (o : RouterOutcome)
    (valid : List String) (h : o.isFailureMode valid = true) :
    (determine_intent_llm s o valid).supervisor_name = some "handle_error_node" ∧
    (determine_intent_llm s o valid).route_error.isSome = true ∧
    patientRouterEdge (applyUpdate s (determine_intent_llm s o valid)) = .handle_error_node ∧
    doctorRouterEdge (applyUpdate s (determine_intent_llm s o valid)) = .handle_error_node := by
  by_cases hq : currentQueryOf s = "" <;>
    cases o with
    | response sup =>
      cases sup with
      | some name =>
        simp only [RouterOutcome.isFailureMode, Bool.not_eq_true'] at h
        have h2 : name ∉ valid := by simpa using h
        simp [determine_intent_llm, applyUpdate, patientRouterEdge, doctorRouterEdge, hq, h2]
      | none =>
        simp [determine_intent_llm, applyUpdate, patientRouterEdge, doctorRouterEdge, hq]
    | _ =>
      simp [determine_intent_llm, applyUpdate, patientRouterEdge, doctorRouterEdge, hq]

/-- Witness for C6 at a concrete gateway failure (unreachable gateway) on a
doctor-role turn. -/
theorem C6_gateway_failure_fallback_witness :
    (determine_intent_llm sDoctorTurn (.invokeFailure "gateway timeout")
        doctorValidSupervisors).supervisor_name = some "handle_error_node" ∧
    (determine_intent_llm sDoctorTurn (.invokeFailure "gateway timeout")
        doctorValidSupervisors).route_error.isSome = true ∧
    patientRouterEdge (applyUpdate sDoctorTurn
        (determine_intent_llm sDoctorTurn (.invokeFailure "gateway timeout")
          doctorValidSupervisors)) = .handle_error_node ∧
    doctorRouterEdge (applyUpdate sDoctorTurn
        (determine_intent_llm sDoctorTurn (.invokeFailure "gateway timeout")
          doctorValidSupervisors)) = .handle_error_node :=
  C6_gateway_failure_fallback sDoctorTurn (.invokeFailure "gateway timeout")
    doctorValidSupervisors rfl

/-- Claim C7: whenever the latest user message is missing (no messages, or
the last message is not human) or empty, the patient analyze step resolves
immediately to the fixed apologetic response with `request_scheduling =
false`, and its result does not depend on the collaborator outcome (no
collaborator call is attempted) — in particular the run does not fail. -/
theorem C7_missing_query_fixed_fallback (s : AgentState) (o o2 : PatientOutcome)
    (h : s.messages = [] ∨
      ∃ m, s.messages.getLast? = some m ∧ (m.type ≠ "human" ∨ m.content = "")) :
    analyze_patient_query s o =
      { patient_response_text :=
          some "I\u0027m sorry, I didnt quite catch that. could you please repeat your question?",
        request_scheduling := some false } ∧
    analyze_patient_query s o = analyze_patient_query s o2 := by
  have hq : currentQueryOf s = "" := by
    rcases h with h | ⟨m, hm, hc⟩
    · simp [currentQueryOf, h]
    · rcases hc with hc | hc
      · simp [currentQueryOf, hm, hc]
      · by_cases ht : m.type = "human" <;> simp [currentQueryOf, hm, ht, hc]
  constructor <;> simp [analyze_patient_query, hq]

/-- Witness for C7: the latest message is system-originated, so there is no
latest user message; the step's output is the fixed apology for any
collaborator outcome. -/
theorem C7_missing_query_fixed_fallback_witness :
    analyze_patient_query { messages := [{ type := "ai", content := "How can I help?" }] }
        (.success { response_text := some "ignored", request_scheduling := some true }) =
      { patient_response_text :=
          some "I\u0027m sorry, I didnt quite catch that. could you please repeat your question?",
        request_scheduling := some false } ∧
    analyze_patient_query { messages := [{ type := "ai", content := "How can I help?" }] }
        (.success { response_text := some "ignored", request_scheduling := some true }) =
      analyze_patient_query { messages := [{ type := "ai", content := "How can I help?" }] }
        .invokeFailure :=
  C7_missing_query_fixed_fallback
    { messages := [{ type := "ai", content := "How can I help?" }] }
    (.success { response_text := some "ignored", request_scheduling := some true })
    .invokeFailure
    (Or.inr ⟨{ type := "ai", content := "How can I help?" }, rfl, Or.inl (by decide)⟩)

/-- Claim C8: a run whose `user_role` is neither `"patient"` nor `"doctor"`
(including an unset role) goes straight from the role gate to the error
terminal: with any positive fuel the run terminates having executed only
`handle_error_node`, its `final_output` is the non-empty error message, no
classifier-invoking node appears in the trace, and the result is
independent of the collaborator oracles (no classifier is invoked). -/
theorem C8_unknown_role_error_terminal (s : AgentState) (o o2 : Oracles)
    (fuel : Nat) (h1 : s.user_role ≠ some "patient")
    (h2 : s.user_role ≠ some "doctor") (hf : 1 ≤ fuel) :
    runMainGraph fuel s o =
      some ({ s with final_output := some ("Sorry, I encountered an error. Reason: "
                ++ s.route_error.getD "Unknown processing error") },
            [MainNode.handle_error_node]) ∧
    ("Sorry, I encountered an error. Reason: "
        ++ s.route_error.getD "Unknown processing error") ≠ "" ∧
    (∀ n, n ∈ [MainNode.handle_error_node] → n ∉ classifierNodes) ∧
    runMainGraph fuel s o = runMainGraph fuel s o2 := by
  have hroute : route_logic_by_role s = "handle_error_node" := by
    unfold route_logic_by_role
    cases hu : s.user_role with
    | none => rfl
    | some r =>
      rw [hu] at h1 h2
      have hr1 : ¬(r = "patient") := fun e => h1 (by rw [e])
      have hr2 : ¬(r = "doctor") := fun e => h2 (by rw [e])
      simp [hr1, hr2]
  obtain ⟨k, rfl⟩ : ∃ k, fuel = k + 1 := ⟨fuel - 1, by omega⟩
  have main : ∀ o3 : Oracles, runMainGraph (k + 1) s o3 =
      some ({ s with final_output := some ("Sorry, I encountered an error. Reason: "
                ++ s.route_error.getD "Unknown processing error") },
            [MainNode.handle_error_node]) := by
    intro o3
    unfold runMainGraph
    rw [hroute]
    simp [runMain, mainStep, applyUpdate, handle_error_node]
  refine ⟨main o, string_append_ne_empty _ _ (by decide), by decide,
    (main o).trans (main o2).symm⟩

/-- Witness for C8 at a concrete run with role `"nurse"` and two different
oracle pairs. -/
theorem C8_unknown_role_error_terminal_witness :
    runMainGraph 1 sUnknownRole oracleA =
      some ({ sUnknownRole with
              final_output := some ("Sorry, I encountered an error. Reason: "
                ++ sUnknownRole.route_error.getD "Unknown processing error") },
            [MainNode.handle_error_node]) ∧
    ("Sorry, I encountered an error. Reason: "
        ++ sUnknownRole.route_error.getD "Unknown processing error") ≠ "" ∧
    (∀ n, n ∈ [MainNode.handle_error_node] → n ∉ classifierNodes) ∧
    runMainGraph 1 sUnknownRole oracleA = runMainGraph 1 sUnknownRole oracleB :=
  C8_unknown_role_error_terminal sUnknownRole oracleA oracleB 1
    (by decide) (by decide) (by decide)

/-- Claim C9: starting the capability registry from stopped when the
configuration has zero active providers is not an error: it is a total
transition that leaves the registry stopped with an empty capability list,
and it does not depend on the client-startup outcome (no client start is
attempted). -/
theorem C9_start_no_active_providers (m : MCPToolManager)
    (o o2 : ClientStartOutcome) (hs : m.is_running = false)
    (ha : m.raw_server_configs.filter (fun p => configActive p.2) = []) :
    (m.start_client o).is_running = false ∧
    (m.start_client o).tools = [] ∧
    (m.start_client o).get_all_tools = [] ∧
    m.start_client o = m.start_client o2 := by
  simp [MCPToolManager.start_client, MCPToolManager.get_all_tools, hs, ha]

/-- Witness for C9: a registry whose only configured provider is disabled,
started under two different client-startup outcomes. -/
theorem C9_start_no_active_providers_witness :
    (mgrDisabledOnly.start_client (.ok [{ name := "booking" }])).is_running = false ∧
    (mgrDisabledOnly.start_client (.ok [{ name := "booking" }])).tools = [] ∧
    (mgrDisabledOnly.start_client (.ok [{ name := "booking" }])).get_all_tools = [] ∧
    mgrDisabledOnly.start_client (.ok [{ name := "booking" }]) =
      mgrDisabledOnly.start_client .failure :=
  C9_start_no_active_providers mgrDisabledOnly (.ok [{ name := "booking" }])
    .failure rfl rfl

/-- Counterexample to claim C10 as stated: for the empty filter set, the
code's `if not required_tool_names` guard treats the empty list like "no
filter" and returns all available capabilities, not the (empty) subsequence
of capabilities whose names lie in the set. -/
theorem C10_empty_filter_counterexample :
    mgrRunning.get_tools_for_agent (some []) = [{ name := "booking" }] ∧
    (mgrRunning.get_all_tools.filter (fun t => ([] : List String).contains t.name)) = [] ∧
    mgrRunning.get_tools_for_agent (some []) ≠
      mgrRunning.get_all_tools.filter (fun t => ([] : List String).contains t.name) := by
  refine ⟨rfl, rfl, by decide⟩

/-- Claim C10 as amended: for every non-empty filter list of requested
capability names, `get_tools_for_agent` returns exactly the available
capabilities whose names are in the list (missing names are only logged),
and when the registry is not running the result is the empty list; the
operation is a total function, so it never raises. -/
theorem C10_filter_returns_matches (m : MCPToolManager) (names : List String)
    (h : names ≠ []) :
    m.get_tools_for_agent (some names) =
      m.get_all_tools.filter (fun t => names.contains t.name) ∧
    (m.is_running = false → m.get_tools_for_agent (some names) = []) := by
  have hne : names.isEmpty = false := by
    cases names with
    | nil => exact absurd rfl h
    | cons a l => rfl
  constructor
  · simp [MCPToolManager.get_tools_for_agent, hne]
  · intro hr
    simp [MCPToolManager.get_tools_for_agent, MCPToolManager.get_all_tools, hne, hr]

/-- Witness for C10 (amended): the spec's own example filter
`{"nonexistent"}` on a running registry returns the empty match set, and a
non-empty filter on a stopped registry returns the empty list. -/
theorem C10_filter_returns_matches_witness :
    mgrRunning.get_tools_for_agent (some ["nonexistent"]) =
      mgrRunning.get_all_tools.filter (fun t => ["nonexistent"].contains t.name) ∧
    mgrStopped.get_tools_for_agent (some ["booking"]) = [] :=
  ⟨(C10_filter_returns_matches mgrRunning ["nonexistent"] (by decide)).1,
   (C10_filter_returns_matches mgrStopped ["booking"] (by decide)).2 rfl⟩
